import Mathlib

/-!
Shallow embedding of the audio transcription and analysis backend
(`audio-analyzer/app.py`): session data model, the transcribe and analyze
request handlers, and the document / spreadsheet export formatters.

The two external providers (the speech-to-text service and the language-model
service) and the standard-library JSON parser are black boxes: each handler is
parameterised by the provider's outcome.  Python dictionaries are modelled as
association lists with unique keys, insertion preserving position of an
existing key (as CPython dicts do).  Python numbers (audio durations, JSON
numbers) are modelled as rationals.
-/

namespace AudioApp

/-- The whitespace characters of Python `str.strip()` / `str.split()`
(restricted to the ASCII range used by this app). -/
def pyIsSpace (c : Char) : Bool :=
  c = ' ' || c = '\t' || c = '\n' || c = '\r' || c = '\x0b' || c = '\x0c'

/-- Python `str.strip()`: remove leading and trailing whitespace. -/
def pyStrip (s : String) : String :=
  String.mk (((s.data.dropWhile pyIsSpace).reverse.dropWhile pyIsSpace).reverse)

/-- Split a character list at every character satisfying `p` (each separator
ends the current piece), as Python `str.split(sep)` does for one-character
separators. -/
def splitChars (p : Char → Bool) : List Char → List (List Char)
  | [] => [[]]
  | c :: cs =>
      if p c then [] :: splitChars p cs
      else
        match splitChars p cs with
        | [] => [[c]]
        | t :: ts => (c :: t) :: ts

/-- Python `len(s.split())`: number of whitespace-separated tokens of `s`
(runs of whitespace collapse, leading/trailing whitespace is ignored). -/
def countWords (s : String) : Nat :=
  ((splitChars pyIsSpace s.data).filter (fun t => ¬ t.isEmpty)).length

/-- Python `s.split("\n", 1)` when it yields two parts; `none` when `s`
contains no newline (in which case indexing `[1]` would raise IndexError). -/
def pySplitNL (s : String) : Option (String × String) :=
  match splitChars (fun c => c = '\n') s.data with
  | [] => none
  | [_] => none
  | x :: rest => some (String.mk x, String.mk (List.intercalate ['\n'] rest))

/-- Scan a REVERSED character list for the first fence marker (which is the
rightmost occurrence in the original string); return what follows it in the
reversed list, i.e. the reversed prefix of the original string before that
occurrence. -/
def findFenceRev : List Char → Option (List Char)
  | '`' :: '`' :: '`' :: rest => some rest
  | _ :: rest => findFenceRev rest
  | [] => none

/-- Python `s.rsplit("```", 1)[0]`: everything before the rightmost
occurrence of the fence marker, or `s` itself when the marker does not
occur. -/
def pyRsplitFence (s : String) : String :=
  match findFenceRev s.data.reverse with
  | none => s
  | some rest => String.mk rest.reverse

/-- Whether a character list begins with the three-character fence marker
(Python `s.startswith("```")`). -/
def startsFence : List Char → Bool
  | '`' :: '`' :: '`' :: _ => true
  | _ => false

/-- Python `int(q)` for a real value: truncation toward zero. -/
def pyInt (q : ℚ) : ℤ := if 0 ≤ q then ⌊q⌋ else ⌈q⌉

/-- Python `int(d // 60)`: floor division by 60 (exact on the integral float). -/
def pyMinutes (d : ℚ) : ℤ := ⌊d / 60⌋

/-- Python `int(d % 60)`: `%` returns `d - 60*⌊d/60⌋ ∈ [0, 60)`, then `int`
truncates (equal to the floor since the operand is nonnegative). -/
def pySeconds (d : ℚ) : ℤ := pyInt (d - 60 * ⌊d / 60⌋)

/-- A JSON scalar as it appears in an attribute mapping: string or number. -/
inductive JValue
  | str (s : String)
  | num (q : ℚ)
deriving DecidableEq, Repr

/-- Python dict lookup `d[k]` / `d.get(k)` over an association list. -/
def dictGet {α : Type} : List (String × α) → String → Option α
  | [], _ => none
  | (k0, v0) :: d, k => if k0 = k then some v0 else dictGet d k

/-- Python dict assignment `d[k] = v`: update in place when the key exists
(keeping its position), append otherwise. -/
def dictInsert {α : Type} : List (String × α) → String → α → List (String × α)
  | [], k, v => [(k, v)]
  | (k0, v0) :: d, k, v =>
      if k0 = k then (k, v) :: d else (k0, v0) :: dictInsert d k v

/-- Python `{**d, **e}`: start from `d` and assign every binding of `e` in
order (a colliding key keeps its position in `d` but takes the value from
`e`). -/
def dictMerge {α : Type} (d e : List (String × α)) : List (String × α) :=
  e.foldl (fun acc p => dictInsert acc p.1 p.2) d

/-- Number of keys of `e` that are new relative to the key list `ks`, each
distinct new key counted once. -/
def numNewKeys {α : Type} : List String → List (String × α) → Nat
  | _, [] => 0
  | ks, (k, _) :: e =>
      if k ∈ ks then numNewKeys ks e else numNewKeys (k :: ks) e + 1

/-- One diarized transcript segment (`utterances` entries built at
app.py:98-103); `stop` models the Python field `end`. -/
structure Utterance where
  speaker : String
  text : String
  start : ℤ
  stop : ℤ
deriving DecidableEq, Repr

/-- The analysis sub-record stored at app.py:193-198 / 207-212. -/
structure Analysis where
  summary : String
  attributes : List (String × JValue)
  prompt_used : String
  model : String
deriving DecidableEq, Repr

/-- A session record as stored in `session_store` (app.py:109-115); the
`analysis` field is set later by the analyze handler. -/
structure SessionRecord where
  filename : String
  full_text : String
  utterances : List Utterance
  duration_seconds : ℚ
  timestamp : String
  analysis : Option Analysis
deriving DecidableEq, Repr

/-- The in-process `session_store` dict. -/
abbrev Store : Type := List (String × SessionRecord)

/-- `session_store[sid]["analysis"] = a` (app.py:193 / 207): replace the
analysis field of the record at `sid`, leaving every other field and every
other session untouched. -/
def storeSetAnalysis : Store → String → Analysis → Store
  | [], _, _ => []
  | (k0, s) :: d, k, a =>
      if k0 = k then (k0, { s with analysis := some a }) :: d
      else (k0, s) :: storeSetAnalysis d k a

/-- `filename.split(".")[0]` (app.py:108): the part before the first dot. -/
def sessionIdOf (filename : String) : String :=
  String.mk (splitChars (fun c => c = '.') filename.data).headI

/-- The claim's reading of the identifier, stated from the spec's words for
comparison with `sessionIdOf`: the filename minus its FINAL extension
(everything before the last dot; the whole name when there is no dot). -/
def stripFinalExt (filename : String) : String :=
  match splitChars (fun c => c = '.') filename.data with
  | [] => filename
  | [_] => filename
  | parts => String.mk (List.intercalate ['.'] parts.dropLast)

/-- Outcome of the transcription provider call (app.py:89), as seen by the
handler: provider-reported error status, success with the transcript fields
read by the handler, or an exception raised during the call. -/
inductive TranscriptOutcome
  | error (msg : String)
  | success (utterances : List Utterance) (text : Option String)
      (audio_duration : Option ℚ)
  | exception (msg : String)

/-- The 200 body of /api/transcribe (app.py:117-123). -/
structure TranscribeOk where
  session_id : String
  text : String
  utterances : List Utterance
  duration_seconds : Option ℚ
  word_count : Nat
deriving DecidableEq, Repr

/-- A handler response: JSON error body with an HTTP status, or a 200 body. -/
inductive TResponse
  | err (status : Nat) (msg : String)
  | ok (body : TranscribeOk)
deriving DecidableEq, Repr

/-- Result of one /api/transcribe request: the response, the store after the
request, and whether the scratch upload file still exists afterwards. -/
structure TranscribeResult where
  response : TResponse
  store : Store
  scratchExists : Bool

/-- The `try` body of the transcribe handler (app.py:82-126): the branch on
the provider outcome.  It never touches the scratch file; only the `finally`
block does. -/
def transcribeBody (store : Store) (origName session_id : String)
    (outcome : TranscriptOutcome) (now : String) : TResponse × Store :=
  match outcome with
  | .error msg => (.err 500 ("Transcription failed: " ++ msg), store)
  | .exception msg => (.err 500 ("Transcription error: " ++ msg), store)
  | .success utts text dur =>
      let full_text := text.getD ""
      let record : SessionRecord :=
        { filename := origName
          full_text := full_text
          utterances := utts
          duration_seconds := dur.getD 0
          timestamp := now
          analysis := none }
      (.ok { session_id := session_id
             text := full_text
             utterances := utts
             duration_seconds := dur
             word_count := countWords full_text },
       dictInsert store session_id record)

/-- The `finally` block (app.py:127-130): unlink the scratch file if it
exists. -/
def finallyCleanup (fileExists : Bool) : Bool :=
  if fileExists then false else fileExists

/-- /api/transcribe from the point where the upload has been saved
(app.py:77-130).  `origName` is the uploaded file's original name, `epoch`
the value of `int(time.time())`; the scratch filename is
`"{epoch}_{origName}"`.  Saving sets the scratch file in existence; the
`finally` block runs on every exit path of the body. -/
def transcribe (store : Store) (origName : String) (epoch : Nat)
    (outcome : TranscriptOutcome) (now : String) : TranscribeResult :=
  let filename := toString epoch ++ "_" ++ origName
  let scratchSaved := true
  let r := transcribeBody store origName (sessionIdOf filename) outcome now
  { response := r.1, store := r.2, scratchExists := finallyCleanup scratchSaved }

/-- Outcome of the language-model provider call (app.py:174-181): the raw
response text, or an exception raised by the call. -/
inductive ClaudeOutcome
  | success (text : String)
  | exception (msg : String)

/-- The value of a successful `json.loads` on the analysis response, as read
by the handler: a JSON object with optional `summary` and `attributes`
members.  (`result.get("summary", "")` / `result.get("attributes", {})`.) -/
structure ParsedJson where
  summary : Option String
  attributes : Option (List (String × JValue))

/-- The fence-stripping step (app.py:184-186): when the text starts with a
code fence, drop the first line (IndexError — modelled as `.error` — when
there is no newline to split on) and drop everything from the last fence
marker on. -/
def stripFences (s : String) : Except String String :=
  if startsFence s.data then
    match pySplitNL s with
    | none => .error "list index out of range"
    | some (_, rest) => .ok (pyRsplitFence rest)
  else .ok s

/-- The analysis record written to the session by the analyze handler:
from the parsed JSON on parse success (app.py:188-198), from the
fence-stripped response text with empty attributes on parse failure
(app.py:205-212).  In both cases it is built afresh, never merged with a
prior analysis. -/
def analysisResultOf (stripped : String) (parsed : Option ParsedJson)
    (prompt model : String) : Analysis :=
  match parsed with
  | some pj =>
      { summary := pj.summary.getD ""
        attributes := pj.attributes.getD []
        prompt_used := prompt
        model := model }
  | none =>
      { summary := stripped
        attributes := []
        prompt_used := prompt
        model := model }

/-- The 200 body of /api/analyze, or a JSON error body with its status. -/
inductive AResponse
  | err (status : Nat) (msg : String)
  | ok (summary : String) (attributes : List (String × JValue))
      (note : Option String)
deriving DecidableEq, Repr

/-- The note attached when the provider's text did not parse as JSON
(app.py:216). -/
def noteMsg : String :=
  "Claude did not return structured JSON. Try refining your prompt."

/-- /api/analyze (app.py:133-219).  `jsonLoads` is the standard-library JSON
parser treated as a black box: `none` models `json.JSONDecodeError`. -/
def analyze (store : Store) (session_id prompt model : String)
    (outcome : ClaudeOutcome) (jsonLoads : String → Option ParsedJson) :
    AResponse × Store :=
  if session_id.isEmpty then
    (.err 400 "Invalid session. Please transcribe audio first.", store)
  else
    match dictGet store session_id with
    | none => (.err 400 "Invalid session. Please transcribe audio first.", store)
    | some _ =>
      if (pyStrip prompt).isEmpty then
        (.err 400 "Analysis prompt cannot be empty.", store)
      else
        match outcome with
        | .exception msg => (.err 500 ("Analysis error: " ++ msg), store)
        | .success raw =>
          let response_text := pyStrip raw
          match stripFences response_text with
          | .error msg => (.err 500 ("Analysis error: " ++ msg), store)
          | .ok stripped =>
            let a := analysisResultOf stripped (jsonLoads stripped) prompt model
            let store2 := storeSetAnalysis store session_id a
            match jsonLoads stripped with
            | some _ => (.ok a.summary a.attributes none, store2)
            | none => (.ok stripped [] (some noteMsg), store2)

/-- One run of a document paragraph: its text and whether it is bold. -/
structure DRun where
  text : String
  bold : Bool
deriving DecidableEq, Repr

/-- A document paragraph as a list of runs. -/
structure Para where
  runs : List DRun
deriving DecidableEq, Repr

/-- Python `s[:10]`: the first ten characters. -/
def take10 (s : String) : String := String.mk (s.data.take 10)

/-- The first run of the metadata line (app.py:242). -/
def fileDateRun (s : SessionRecord) : String :=
  "File: " ++ s.filename ++ "  |  Date: " ++ take10 s.timestamp

/-- The duration run appended when the duration is truthy (app.py:246-252). -/
def durationRun (d : ℚ) : String :=
  "  |  Duration: " ++ toString (pyMinutes d) ++ "m " ++
    toString (pySeconds d) ++ "s"

/-- The runs of the centered metadata line: file and date, then the duration
run exactly when `duration` is nonzero (Python truthiness of the number). -/
def metaRuns (s : SessionRecord) : List String :=
  if s.duration_seconds = 0 then [fileDateRun s]
  else [fileDateRun s, durationRun s.duration_seconds]

/-- The paragraph rendered for one utterance (app.py:262-268): a bold
`Speaker {label}: ` run followed by a plain run with the utterance text. -/
def speakerPara (u : Utterance) : Para :=
  { runs := [{ text := "Speaker " ++ u.speaker ++ ": ", bold := true },
             { text := u.text, bold := false }] }

/-- The transcript section (app.py:259-271): one speaker paragraph per
utterance in order, or a single plain paragraph with `full_text` when there
are no utterances. -/
def transcriptParas (s : SessionRecord) : List Para :=
  if s.utterances.isEmpty then [{ runs := [{ text := s.full_text, bold := false }] }]
  else s.utterances.map speakerPara

/-- The analysis section of the document (app.py:273-302): the instruction
used, the summary, and — only when attributes are non-empty — the
attribute/value table rows (values coerced to display strings by `str`). -/
structure AnalysisSec where
  prompt_used : String
  summary : String
  attrTable : Option (List (String × JValue))
deriving DecidableEq, Repr

/-- The document produced by /api/export/docx, by section. -/
structure DocxDoc where
  title : String
  metaRuns : List String
  transcript : List Para
  analysisSec : Option AnalysisSec
deriving DecidableEq, Repr

/-- The document assembled for a session record (app.py:233-306). -/
def docxOf (s : SessionRecord) : DocxDoc :=
  { title := "Audio Transcript"
    metaRuns := metaRuns s
    transcript := transcriptParas s
    analysisSec := s.analysis.map (fun a =>
      { prompt_used := a.prompt_used
        summary := a.summary
        attrTable :=
          if a.attributes.isEmpty then none else some a.attributes }) }

/-- /api/export/docx (app.py:222-313); `none` models the 400 invalid-session
response. -/
def export_docx (store : Store) (session_id : String) : Option DocxDoc :=
  if session_id.isEmpty then none
  else
    match dictGet store session_id with
    | none => none
    | some s => some (docxOf s)

/-- The four fixed metadata columns of the spreadsheet row (app.py:334-338). -/
def fixedRow (s : SessionRecord) : List (String × JValue) :=
  [("filename", .str s.filename),
   ("date", .str (take10 s.timestamp)),
   ("duration_seconds", .num s.duration_seconds),
   ("word_count", .num (countWords s.full_text : ℚ))]

/-- The single CSV row `{fixed columns, **attributes}` (app.py:334-340):
Python dict-merge, so a colliding attribute key keeps the fixed column's
position but takes the attribute's value. -/
def csvTable (s : SessionRecord) (a : Analysis) : List (String × JValue) :=
  dictMerge (fixedRow s) a.attributes

/-- The /api/export/csv response: error body, or the file's single header row
(the merged dict's keys) with its single data row (the values). -/
inductive CsvResponse
  | err (status : Nat) (msg : String)
  | file (table : List (String × JValue))
deriving DecidableEq, Repr

/-- The no-analysis error message (app.py:329). -/
def noAttrsMsg : String := "No analysis attributes found. Run analysis first."

/-- /api/export/csv (app.py:316-353). -/
def export_csv (store : Store) (session_id : String) : CsvResponse :=
  if session_id.isEmpty then .err 400 "Invalid session."
  else
    match dictGet store session_id with
    | none => .err 400 "Invalid session."
    | some s =>
      match s.analysis with
      | none => .err 400 noAttrsMsg
      | some a =>
        if a.attributes.isEmpty then .err 400 noAttrsMsg
        else .file (csvTable s a)

/-! ### Association-list lemmas

Facts about the Python-dict model used by the session store and the
spreadsheet row merge. -/

theorem dictGet_dictInsert_self {α : Type} (d : List (String × α)) (k : String)
    (v : α) : dictGet (dictInsert d k v) k = some v := by
  induction d with
  | nil => simp [dictInsert, dictGet]
  | cons p d ih =>
    obtain ⟨k0, v0⟩ := p
    by_cases h : k0 = k
    · simp [dictInsert, h, dictGet]
    · simp [dictInsert, h, dictGet, ih]

theorem dictGet_dictInsert_ne {α : Type} (d : List (String × α)) (k k' : String)
    (v : α) (h : k' ≠ k) : dictGet (dictInsert d k v) k' = dictGet d k' := by
  induction d with
  | nil => simp [dictInsert, dictGet, Ne.symm h]
  | cons p d ih =>
    obtain ⟨k0, v0⟩ := p
    by_cases h0 : k0 = k
    · subst h0
      simp [dictInsert, dictGet, Ne.symm h]
    · by_cases h1 : k0 = k' <;> simp [dictInsert, dictGet, h0, h1, h, ih]

theorem dictInsert_keys {α : Type} (d : List (String × α)) (k : String) (v : α) :
    (dictInsert d k v).map Prod.fst =
      if k ∈ d.map Prod.fst then d.map Prod.fst else d.map Prod.fst ++ [k] := by
  induction d with
  | nil => simp [dictInsert]
  | cons p d ih =>
    obtain ⟨k0, v0⟩ := p
    by_cases h : k0 = k
    · subst h
      simp [dictInsert]
    · by_cases h2 : k ∈ d.map Prod.fst <;>
        simp [dictInsert, h, h2, ih, Ne.symm h]

theorem dictInsert_length {α : Type} (d : List (String × α)) (k : String) (v : α) :
    (dictInsert d k v).length =
      if k ∈ d.map Prod.fst then d.length else d.length + 1 := by
  induction d with
  | nil => simp [dictInsert]
  | cons p d ih =>
    obtain ⟨k0, v0⟩ := p
    by_cases h : k0 = k
    · subst h
      simp [dictInsert]
    · by_cases h2 : k ∈ d.map Prod.fst <;>
        simp [dictInsert, h, h2, ih, Ne.symm h]

theorem numNewKeys_congr {α : Type} (e : List (String × α)) :
    ∀ ks ks' : List String, (∀ x, x ∈ ks ↔ x ∈ ks') →
      numNewKeys ks e = numNewKeys ks' e := by
  induction e with
  | nil => intro ks ks' _; rfl
  | cons p e ih =>
    intro ks ks' h
    obtain ⟨k, v⟩ := p
    by_cases hk : k ∈ ks
    · have hk' : k ∈ ks' := (h k).1 hk
      simp [numNewKeys, hk, hk', ih ks ks' h]
    · have hk' : k ∉ ks' := fun c => hk ((h k).2 c)
      have step : numNewKeys (k :: ks) e = numNewKeys (k :: ks') e := by
        refine ih _ _ ?_
        intro x
        simp [h x]
      simp [numNewKeys, hk, hk', step]

theorem dictMerge_length {α : Type} (e : List (String × α)) :
    ∀ d : List (String × α),
      (dictMerge d e).length = d.length + numNewKeys (d.map Prod.fst) e := by
  induction e with
  | nil => intro d; rfl
  | cons p e ih =>
    intro d
    obtain ⟨k, v⟩ := p
    have hstep : dictMerge d ((k, v) :: e) = dictMerge (dictInsert d k v) e := rfl
    rw [hstep, ih, dictInsert_length, dictInsert_keys]
    by_cases h : k ∈ d.map Prod.fst
    · simp [h, numNewKeys]
    · have hcongr : numNewKeys (d.map Prod.fst ++ [k]) e =
          numNewKeys (k :: d.map Prod.fst) e := by
        refine numNewKeys_congr e _ _ ?_
        intro x
        simp [or_comm]
      simp [h, numNewKeys, hcongr]
      omega

theorem dictGet_dictMerge_notMem {α : Type} (e : List (String × α)) :
    ∀ (d : List (String × α)) (k : String), k ∉ e.map Prod.fst →
      dictGet (dictMerge d e) k = dictGet d k := by
  induction e with
  | nil => intro d k _; rfl
  | cons p e ih =>
    intro d k hk
    obtain ⟨k1, v1⟩ := p
    simp only [List.map_cons, List.mem_cons, not_or] at hk
    have hstep : dictMerge d ((k1, v1) :: e) = dictMerge (dictInsert d k1 v1) e := rfl
    rw [hstep, ih _ k hk.2, dictGet_dictInsert_ne _ _ _ _ hk.1]

theorem dictGet_dictMerge_right {α : Type} (e : List (String × α)) :
    ∀ (d : List (String × α)) (k : String) (v : α),
      (e.map Prod.fst).Nodup → dictGet e k = some v →
      dictGet (dictMerge d e) k = some v := by
  induction e with
  | nil => intro d k v _ h; simp [dictGet] at h
  | cons p e ih =>
    intro d k v hnd hget
    obtain ⟨k1, v1⟩ := p
    simp only [List.map_cons, List.nodup_cons] at hnd
    have hstep : dictMerge d ((k1, v1) :: e) = dictMerge (dictInsert d k1 v1) e := rfl
    by_cases h : k1 = k
    · subst h
      rw [dictGet, if_pos rfl] at hget
      rw [hstep, dictGet_dictMerge_notMem e _ k1 hnd.1,
        dictGet_dictInsert_self]
      exact hget
    · rw [dictGet, if_neg h] at hget
      rw [hstep]
      exact ih _ k v hnd.2 hget

theorem dictGet_storeSetAnalysis (store : Store) (sid : String) (a : Analysis) :
    dictGet (storeSetAnalysis store sid a) sid =
      (dictGet store sid).map (fun s => { s with analysis := some a }) := by
  induction store with
  | nil => rfl
  | cons p d ih =>
    obtain ⟨k0, s0⟩ := p
    by_cases h : k0 = sid <;> simp [storeSetAnalysis, dictGet, h, ih]

/-! ### Concrete fixtures

Reference sessions used by witnesses and counterexamples: a transcription of
`talk.wav` with `full_text = "hello world"` and duration 65.4 s, once without
and once with a stored analysis. -/

/-- A session as created by a successful transcription of `talk.wav`. -/
def sessW : SessionRecord :=
  { filename := "talk.wav"
    full_text := "hello world"
    utterances := []
    duration_seconds := 327 / 5
    timestamp := "2025-01-01T12:00:00"
    analysis := none }

/-- A store holding only `sessW`. -/
def storeW : Store := [("1_w", sessW)]

/-- An attribute mapping whose single key collides with the fixed `filename`
column. -/
def attrsX : List (String × JValue) := [("filename", .str "override.wav")]

/-- An analysis carrying the colliding attribute mapping. -/
def analysisX : Analysis :=
  { summary := "s", attributes := attrsX, prompt_used := "p", model := "m" }

/-- `sessW` after an analyze call that stored `analysisX`. -/
def sessX : SessionRecord := { sessW with analysis := some analysisX }

/-- A store holding only `sessX`. -/
def storeX : Store := [("1_x", sessX)]

/-- One diarized utterance. -/
def uttA : Utterance := { speaker := "A", text := "hi there", start := 0, stop := 900 }

/-- `sessW` with one utterance. -/
def sessU : SessionRecord := { sessW with utterances := [uttA] }

/-- A store holding only `sessU`. -/
def storeU : Store := [("1_u", sessU)]

/-- The merged spreadsheet row for `sessX` / `analysisX`. -/
def tableX : List (String × JValue) := csvTable sessX analysisX

/-! ### Claims -/

/-- Claim C1, counterexample: uploading `a.b.wav` at epoch 1 gives the scratch
filename `1_a.b.wav`; the handler returns (and stores under) session id
`1_a` — the part before the FIRST dot — whereas the filename minus its final
extension is `1_a.b`. -/
theorem transcribe_sessionId_counterexample :
    (transcribe [] "a.b.wav" 1 (.success [] (some "hi") (some 10))
        "2025-01-01T00:00:00").response
      = .ok { session_id := "1_a", text := "hi", utterances := [],
              duration_seconds := some 10, word_count := 1 }
    ∧ stripFinalExt "1_a.b.wav" = "1_a.b"
    ∧ ("1_a" : String) ≠ "1_a.b" :=
  ⟨rfl, rfl, by decide⟩

/-- Claim C1, amended: for every upload, the session identifier returned by
the transcription operation is the scratch filename truncated at its first
dot (`split(".")[0]`; equal to dropping the final extension only when the
filename has at most one dot), and the session record is stored under exactly
that identifier. -/
theorem transcribe_sessionId_first_dot (store : Store) (origName : String)
    (epoch : Nat) (utts : List Utterance) (text : Option String)
    (dur : Option ℚ) (now : String) :
    (transcribe store origName epoch (.success utts text dur) now).response
      = .ok { session_id := sessionIdOf (toString epoch ++ "_" ++ origName),
              text := text.getD "", utterances := utts,
              duration_seconds := dur,
              word_count := countWords (text.getD "") }
    ∧ dictGet (transcribe store origName epoch (.success utts text dur) now).store
          (sessionIdOf (toString epoch ++ "_" ++ origName))
      = some { filename := origName, full_text := text.getD "",
               utterances := utts, duration_seconds := dur.getD 0,
               timestamp := now, analysis := none } := by
  constructor
  · rfl
  · exact dictGet_dictInsert_self store _ _

/-- Claim C2: whatever the provider outcome — success, provider-reported
error, or an unexpected exception — the scratch upload file no longer exists
when the transcribe request completes (the `finally` block unlinks it). -/
theorem transcribe_scratch_deleted (store : Store) (origName : String)
    (epoch : Nat) (outcome : TranscriptOutcome) (now : String) :
    (transcribe store origName epoch outcome now).scratchExists = false := by
  cases outcome <;> rfl

/-- Claim C10: when the provider reports no audio duration, the stored
session record holds `duration_seconds = 0` while the immediate response
body carries the provider's null duration — the two disagree. -/
theorem transcribe_null_duration_mismatch (store : Store) (origName : String)
    (epoch : Nat) (utts : List Utterance) (text : Option String) (now : String) :
    (transcribe store origName epoch (.success utts text none) now).response
      = .ok { session_id := sessionIdOf (toString epoch ++ "_" ++ origName),
              text := text.getD "", utterances := utts,
              duration_seconds := none,
              word_count := countWords (text.getD "") }
    ∧ (dictGet (transcribe store origName epoch (.success utts text none) now).store
          (sessionIdOf (toString epoch ++ "_" ++ origName))).map
        SessionRecord.duration_seconds = some 0
    ∧ (none : Option ℚ) ≠ some 0 := by
  refine ⟨rfl, ?_, by simp⟩
  rw [show (transcribe store origName epoch (.success utts text none) now).store
      = dictInsert store (sessionIdOf (toString epoch ++ "_" ++ origName))
          { filename := origName, full_text := text.getD "",
            utterances := utts, duration_seconds := (none : Option ℚ).getD 0,
            timestamp := now, analysis := none } from rfl,
    dictGet_dictInsert_self]
  rfl

/-- Claim C5: on an existing session with a non-empty instruction, a provider
call failure other than a JSON parse failure yields the provider-error
response, and the whole store — in particular the session's prior analysis —
is exactly what it was before the call. -/
theorem analyze_provider_error_atomic (store : Store)
    (sid prompt model msg : String) (jsonLoads : String → Option ParsedJson)
    (h1 : sid.isEmpty = false) (h2 : (dictGet store sid).isSome = true)
    (h3 : (pyStrip prompt).isEmpty = false) :
    analyze store sid prompt model (.exception msg) jsonLoads
      = (.err 500 ("Analysis error: " ++ msg), store) := by
  cases hg : dictGet store sid with
  | none => rw [hg] at h2; simp at h2
  | some s => simp [analyze, h1, hg, h3]

/-- Witness for C5 at a concrete store, session, prompt and failure message. -/
theorem analyze_provider_error_atomic_witness :
    analyze storeW "1_w" "Summarize" "m" (.exception "boom") (fun _ => none)
      = (.err 500 "Analysis error: boom", storeW) :=
  analyze_provider_error_atomic storeW "1_w" "Summarize" "m" "boom"
    (fun _ => none) rfl rfl rfl

/-- Claim C6: every analyze call that reaches the storing step — a parse
success or a degraded parse failure — replaces the session's `analysis` field
with a record built solely from this call (no key of a prior analysis
survives) and leaves every other field of the record unchanged. -/
theorem analyze_replaces_analysis (store : Store)
    (sid prompt model raw stripped : String) (s : SessionRecord)
    (jsonLoads : String → Option ParsedJson)
    (h1 : sid.isEmpty = false) (h2 : dictGet store sid = some s)
    (h3 : (pyStrip prompt).isEmpty = false)
    (h4 : stripFences (pyStrip raw) = .ok stripped) :
    dictGet (analyze store sid prompt model (.success raw) jsonLoads).2 sid
      = some { s with analysis := some (analysisResultOf stripped (jsonLoads stripped) prompt model) } := by
  cases hj : jsonLoads stripped <;>
    simp [analyze, h1, h2, h3, h4, hj, dictGet_storeSetAnalysis]

/-- Witness for C6: re-analyzing the session that already stores `analysisX`
replaces that analysis wholesale with the new degraded record. -/
theorem analyze_replaces_analysis_witness :
    dictGet (analyze storeX "1_x" "Summarize" "m" (.success "x")
        (fun _ => none)).2 "1_x"
      = some { sessX with analysis := some { summary := "x", attributes := [], prompt_used := "Summarize", model := "m" } } :=
  analyze_replaces_analysis storeX "1_x" "Summarize" "m" "x" "x" sessX
    (fun _ => none) rfl rfl rfl rfl

/-- Claim C4, counterexample: (i) the three-character provider response made
of one code fence fails to parse as JSON, yet the operation fails with a 500
provider error rather than degrading; (ii) for the provider response
consisting of `hello` surrounded by spaces, the degraded summary is the
stripped text `hello`, not the provider's raw text verbatim. -/
theorem analyze_parse_failure_counterexample :
    (analyze storeW "1_w" "Summarize" "m" (.success "```")
        (fun _ => none)).1
      = .err 500 "Analysis error: list index out of range"
    ∧ (analyze storeW "1_w" "Summarize" "m" (.success " hello ")
        (fun _ => none)).1
      = .ok "hello" [] (some noteMsg)
    ∧ ("hello" : String) ≠ " hello " :=
  ⟨rfl, rfl, by decide⟩

/-- Claim C4, amended: for every provider response whose stripped text
survives fence removal (a leading fence must contain a newline) and then
fails to parse as JSON, the operation does not fail: it stores an analysis
record with empty attributes whose summary is the whitespace- and
fence-stripped response text, and returns that result with the note that
structured extraction failed. -/
theorem analyze_parse_failure_degrades (store : Store)
    (sid prompt model raw stripped : String) (s : SessionRecord)
    (jsonLoads : String → Option ParsedJson)
    (h1 : sid.isEmpty = false) (h2 : dictGet store sid = some s)
    (h3 : (pyStrip prompt).isEmpty = false)
    (h4 : stripFences (pyStrip raw) = .ok stripped)
    (h5 : jsonLoads stripped = none) :
    analyze store sid prompt model (.success raw) jsonLoads
      = (.ok stripped [] (some noteMsg),
         storeSetAnalysis store sid
           { summary := stripped, attributes := [],
             prompt_used := prompt, model := model }) := by
  simp [analyze, h1, h2, h3, h4, h5, analysisResultOf]

/-- Witness for C4 (amended) at the concrete response `" hello "`. -/
theorem analyze_parse_failure_degrades_witness :
    analyze storeW "1_w" "Summarize" "m" (.success " hello ") (fun _ => none)
      = (.ok "hello" [] (some noteMsg),
         storeSetAnalysis storeW "1_w"
           { summary := "hello", attributes := [],
             prompt_used := "Summarize", model := "m" }) :=
  analyze_parse_failure_degrades storeW "1_w" "Summarize" "m" " hello "
    "hello" sessW (fun _ => none) rfl rfl rfl rfl rfl

/-- Claim C9: when the stripped provider response begins with a code fence
but contains no newline, the `split("\n", 1)[1]` indexing raises, the generic
handler turns it into a 500 provider-error response, and no analysis is
stored (the store is untouched). -/
theorem analyze_fence_without_newline_500 (store : Store)
    (sid prompt model raw : String) (jsonLoads : String → Option ParsedJson)
    (h1 : sid.isEmpty = false) (h2 : (dictGet store sid).isSome = true)
    (h3 : (pyStrip prompt).isEmpty = false)
    (h4 : startsFence (pyStrip raw).data = true)
    (h5 : pySplitNL (pyStrip raw) = none) :
    analyze store sid prompt model (.success raw) jsonLoads
      = (.err 500 "Analysis error: list index out of range", store) := by
  have h6 : stripFences (pyStrip raw) = .error "list index out of range" := by
    rw [stripFences, if_pos h4, h5]
  cases hg : dictGet store sid with
  | none => rw [hg] at h2; simp at h2
  | some s => simp [analyze, h1, hg, h3, h6]

/-- Witness for C9 at the three-character response `"```"`. -/
theorem analyze_fence_without_newline_500_witness :
    analyze storeW "1_w" "Summarize" "m" (.success "```") (fun _ => none)
      = (.err 500 "Analysis error: list index out of range", storeW) :=
  analyze_fence_without_newline_500 storeW "1_w" "Summarize" "m" "```"
    (fun _ => none) rfl rfl rfl rfl rfl

/-- Claim C3, counterexample: with the single attribute key `filename`, which
collides with a fixed column, the exported row has 4 columns — the attribute
value overwrites the fixed `filename` cell — not 4 + 1. -/
theorem export_csv_column_count_counterexample :
    export_csv storeX "1_x" = .file tableX
    ∧ tableX.length = 4
    ∧ analysisX.attributes.length = 1
    ∧ dictGet tableX "filename" = some (.str "override.wav")
    ∧ tableX.length ≠ 4 + analysisX.attributes.length :=
  ⟨rfl, rfl, rfl, rfl, by decide⟩

/-- Claim C3, amended: spreadsheet export fails with the no-analysis error
exactly when the session's analysis (or its attribute mapping) is absent or
empty; otherwise it produces exactly one header row and one data row, whose
column count is 4 plus the number of distinct attribute keys NOT among the
four fixed metadata columns, a colliding attribute key's value overwriting
the corresponding fixed metadata cell. -/
theorem export_csv_shape (store : Store) (sid : String) (s : SessionRecord)
    (h1 : sid.isEmpty = false) (h2 : dictGet store sid = some s) :
    (s.analysis = none → export_csv store sid = .err 400 noAttrsMsg)
    ∧ (∀ a, s.analysis = some a → a.attributes = [] →
        export_csv store sid = .err 400 noAttrsMsg)
    ∧ (∀ a, s.analysis = some a → a.attributes ≠ [] →
        export_csv store sid = .file (csvTable s a)
        ∧ (csvTable s a).length
            = 4 + numNewKeys ((fixedRow s).map Prod.fst) a.attributes
        ∧ (∀ k v, (a.attributes.map Prod.fst).Nodup →
            dictGet a.attributes k = some v →
            dictGet (csvTable s a) k = some v)) := by
  refine ⟨?_, ?_, ?_⟩
  · intro h
    simp [export_csv, h1, h2, h]
  · intro a ha he
    simp [export_csv, h1, h2, ha, he]
  · intro a ha he
    refine ⟨?_, ?_, ?_⟩
    · simp [export_csv, h1, h2, ha, he]
    · rw [csvTable, dictMerge_length]
      rfl
    · intro k v hnd hget
      exact dictGet_dictMerge_right a.attributes (fixedRow s) k v hnd hget

/-- Witness for C3 (amended) on the concrete colliding store. -/
theorem export_csv_shape_witness :
    export_csv storeX "1_x" = .file (csvTable sessX analysisX) :=
  (((export_csv_shape storeX "1_x" sessX rfl rfl).2.2) analysisX rfl
    (by decide)).1

/-- Claim C7: document export renders `full_text` as a single plain paragraph
when there are no utterances, and with utterances it renders exactly one
paragraph per utterance, in order, each a bold `Speaker {label}: ` run
followed by a plain run with the utterance's text. -/
theorem export_docx_transcript (store : Store) (sid : String)
    (s : SessionRecord) (h1 : sid.isEmpty = false)
    (h2 : dictGet store sid = some s) :
    export_docx store sid = some (docxOf s)
    ∧ (docxOf s).transcript = transcriptParas s
    ∧ (s.utterances = [] →
        transcriptParas s = [{ runs := [{ text := s.full_text, bold := false }] }])
    ∧ (s.utterances ≠ [] →
        (transcriptParas s).length = s.utterances.length
        ∧ ∀ i : Nat, (transcriptParas s)[i]? = (s.utterances[i]?).map speakerPara) := by
  refine ⟨?_, rfl, ?_, ?_⟩
  · simp [export_docx, h1, h2]
  · intro h
    simp [transcriptParas, h]
  · intro h
    have hne : s.utterances.isEmpty = false := by
      cases hu : s.utterances with
      | nil => exact absurd hu h
      | cons u us => rfl
    constructor
    · simp [transcriptParas, hne]
    · intro i
      simp [transcriptParas, hne]

/-- Witness for C7 on the one-utterance store. -/
theorem export_docx_transcript_witness :
    export_docx storeU "1_u" = some (docxOf sessU)
    ∧ transcriptParas sessU = [speakerPara uttA] := by
  have h := export_docx_transcript storeU "1_u" sessU rfl rfl
  exact ⟨h.1, rfl⟩

/-- Claim C8: when the duration is present and nonzero the metadata line ends
with a duration formatted from `⌊d/60⌋` minutes and `int(d mod 60)` seconds;
in particular a duration of 65.4 s renders as `Duration: 1m 5s`, and with
`full_text = "hello world"` the spreadsheet `word_count` column is 2. -/
theorem export_docx_duration_and_word_count (store : Store) (sid : String)
    (s : SessionRecord) (h1 : sid.isEmpty = false)
    (h2 : dictGet store sid = some s) (h3 : s.duration_seconds ≠ 0) :
    export_docx store sid = some (docxOf s)
    ∧ (docxOf s).metaRuns = [fileDateRun s, durationRun s.duration_seconds]
    ∧ durationRun s.duration_seconds
        = "  |  Duration: " ++ toString (pyMinutes s.duration_seconds) ++ "m "
            ++ toString (pySeconds s.duration_seconds) ++ "s"
    ∧ (s.duration_seconds = 327 / 5 →
        durationRun s.duration_seconds = "  |  Duration: 1m 5s")
    ∧ (∀ a : Analysis, "word_count" ∉ a.attributes.map Prod.fst →
        dictGet (csvTable s a) "word_count"
          = some (.num ((countWords s.full_text : ℚ))))
    ∧ (s.full_text = "hello world" → countWords s.full_text = 2) := by
  refine ⟨?_, ?_, rfl, ?_, ?_, ?_⟩
  · simp [export_docx, h1, h2]
  · simp [docxOf, metaRuns, h3]
  · intro h
    rw [h]
    have hm : pyMinutes (327 / 5 : ℚ) = 1 := by norm_num [pyMinutes]
    have hs : pySeconds (327 / 5 : ℚ) = 5 := by norm_num [pySeconds, pyInt]
    rw [durationRun, hm, hs]
    rfl
  · intro a hnk
    rw [csvTable, dictGet_dictMerge_notMem a.attributes (fixedRow s) "word_count" hnk]
    rfl
  · intro h
    rw [h]
    decide

/-- Witness for C8 on the concrete 65.4-second session (`full_text` is
`hello world`). -/
theorem export_docx_duration_and_word_count_witness :
    durationRun sessX.duration_seconds = "  |  Duration: 1m 5s"
    ∧ dictGet (csvTable sessX analysisX) "word_count" = some (.num 2) := by
  have h := export_docx_duration_and_word_count storeX "1_x" sessX rfl rfl
    (by norm_num [sessX, sessW])
  refine ⟨h.2.2.2.1 rfl, ?_⟩
  have h5 := h.2.2.2.2.1 analysisX (by decide)
  rw [h5, show countWords sessX.full_text = 2 from by decide]
  norm_num

end AudioApp
